import Mathlib

/-!
Verification of the StockScope fundamentals engine
(`backend/services/fundamentals.py`, `backend/routers/fundamentals.py`).

Shallow embedding conventions:
* A pandas `DataFrame` of a financial statement is a `DF`: a list of column
  labels (period dates rendered as ISO strings, already sorted
  most-recent-first — `_calculate_comprehensive_metrics` sorts the columns
  descending before any calculation) together with rows, each row being a
  line-item label paired with a label-indexed cell function (pandas `.loc`
  access is by label, so a cell is addressed by its column label).
* A cell is `Option ℚ`: `none` models a missing entry or NaN (everything
  `pd.notna` rejects), `some v` a numeric value.
* Python `None` results are `Option.none`; a Python `TypeError` raised by
  `None * multiplier` inside the `try` of `_calculate_ttm_metrics` lands in
  the `except` branch, which the embedding models by returning the same
  `_get_empty_ttm()` value the handler returns.
-/

/-- A financial-statement table: column labels (period date strings,
most recent first) and rows of line-item label with label-indexed cells. -/
structure DF where
  cols : List String
  rows : List (String × (String → Option ℚ))

/-- `df.empty` in pandas: true when either axis has length 0. -/
def DF.isEmptyDF (df : DF) : Bool :=
  df.cols.isEmpty || df.rows.isEmpty

/-- Build a row cell function from an association list of (column, value). -/
def rowOf (l : List (String × ℚ)) : String → Option ℚ := fun c =>
  (l.find? (fun x => x.1 = c)).map (fun x => x.2)

/-- The `field_mappings` table of `_safe_get`. -/
def field_mappings (field : String) : List String :=
  if field = "Total Revenue" then
    ["Total Revenue", "Operating Revenue", "Revenue", "Net Sales", "Sales"]
  else if field = "Operating Income" then
    ["Operating Income", "Total Operating Income As Reported", "Operating Revenue", "EBIT"]
  else if field = "Operating Cash Flow" then
    ["Operating Cash Flow", "Cash Flow From Operating Activities",
     "Total Cash From Operating Activities"]
  else if field = "Capital Expenditures" then
    ["Capital Expenditures", "Capital Expenditure", "Capex",
     "Property Plant Equipment Investments", "Net PPE Purchase And Sale"]
  else if field = "Depreciation And Amortization" then
    ["Depreciation And Amortization", "Depreciation", "Amortization",
     "Reconciled Depreciation"]
  else []

/-- `field_variants = [field] + field_mappings.get(field, [])` in `_safe_get`. -/
def field_variants (field : String) : List String :=
  field :: field_mappings field

/-- Reading one cell in `_safe_get`: the value is returned only when
`pd.notna(value) and value != 0`; a NaN/missing or exactly-zero cell is
treated as absent. -/
def goodCell (row : String → Option ℚ) (col : String) : Option ℚ :=
  match row col with
  | some v => if v ≠ 0 then some v else none
  | none => none

/-- One iteration of the variant loop of `_safe_get`: first an exact
row-label match, then a case-insensitive scan over all rows in order. -/
def tryVariant (df : DF) (variant col : String) : Option ℚ :=
  (match df.rows.find? (fun r => r.1 = variant) with
   | some r => goodCell r.2 col
   | none => none) <|>
  df.rows.findSome? (fun r =>
    if r.1.toLower = variant.toLower then goodCell r.2 col else none)

/-- Period resolution in `_safe_get`: find the column matching the requested
period; when no column matches, silently fall back to the first column. -/
def resolveCol (df : DF) (period : String) : Option String :=
  match df.cols.find? (fun c => c = period) with
  | some c => some c
  | none => df.cols.head?

/-- `_safe_get(df, field, period)`: resolve the period to a column, then try
the field variants in priority order, returning the first usable value. -/
def safe_get (df : DF) (field period : String) : Option ℚ :=
  if df.isEmptyDF then none
  else
    match resolveCol df period with
    | some col => (field_variants field).findSome? (fun v => tryVariant df v col)
    | none => none

/-- `_safe_sum(df, field, periods)`: sum `_safe_get` over the periods that
actually appear among the columns; `None` unless at least one value
contributed. -/
def safe_sum (df : DF) (field : String) (periods : List String) : Option ℚ :=
  if df.isEmptyDF || periods.isEmpty then none
  else
    let vals := periods.filterMap (fun p =>
      if p ∈ df.cols then safe_get df field p else none)
    if vals.isEmpty then none else some vals.sum

/-- `_calculate_growth_rate(current, previous, multiplier)`: `None` when a
value is missing or the previous value is zero; growth rates with
`abs(growth) > 10` (1000%) are capped to `None`. -/
def calculate_growth_rate (current previous : Option ℚ) (multiplier : ℚ) : Option ℚ :=
  match current, previous with
  | some c, some p =>
    if p = 0 then none
    else
      let g := (c / p - 1) * multiplier
      if |g| > 10 then none else some g
  | _, _ => none

/-- Growth-rate record returned by `_calculate_growth_rates` /
`_get_empty_growth`. -/
structure GrowthData where
  revenue_growth_yoy : Option ℚ
  fcf_growth_yoy : Option ℚ
  ebitda_growth_yoy : Option ℚ
  margin_growth_yoy_pp : Option ℚ

/-- `_get_empty_growth()`. -/
def empty_growth : GrowthData :=
  { revenue_growth_yoy := none, fcf_growth_yoy := none,
    ebitda_growth_yoy := none, margin_growth_yoy_pp := none }

/-- The (current period, comparison period, multiplier) choice of
`_calculate_growth_rates`, reached only when `income` has ≥ 2 columns:
quarterly with ≥ 5 columns compares the newest quarter against the quarter
four back with multiplier 1; quarterly with 2–4 columns compares sequential
quarters annualized ×4; annual compares the two newest years. -/
def growth_cmp (income : DF) (q : Bool) : String × String × ℚ :=
  if q = true then
    if 5 ≤ income.cols.length then
      (income.cols.getD 0 "", income.cols.getD 4 "", 1)
    else
      (income.cols.getD 0 "", income.cols.getD 1 "", 4)
  else
    (income.cols.getD 0 "", income.cols.getD 1 "", 1)

/-- `multiplier ** 0.5` as used in the margin-delta line; the multiplier is
1 or 4 on every path of `_calculate_growth_rates`. -/
def sqrt_mult (m : ℚ) : ℚ := if m = 4 then 2 else 1

/-- `_calculate_growth_rates(income, cashflow, is_quarterly)`. -/
def calculate_growth_rates (income cashflow : DF) (q : Bool) : GrowthData :=
  if income.isEmptyDF || income.cols.length < 2 then empty_growth
  else
    let cmp := growth_cmp income q
    let current_period := cmp.1
    let comparison_period := cmp.2.1
    let mult := cmp.2.2
    let current_revenue := safe_get income "Total Revenue" current_period
    let prev_revenue := safe_get income "Total Revenue" comparison_period
    let revenue_growth_yoy := calculate_growth_rate current_revenue prev_revenue mult
    let fcf_growth_yoy : Option ℚ :=
      if cashflow.isEmptyDF = false ∧ 2 ≤ cashflow.cols.length then
        match safe_get cashflow "Operating Cash Flow" current_period,
              safe_get cashflow "Capital Expenditures" current_period,
              safe_get cashflow "Operating Cash Flow" comparison_period,
              safe_get cashflow "Capital Expenditures" comparison_period with
        | some ccf, some ccx, some pcf, some pcx =>
          calculate_growth_rate (some (ccf + ccx)) (some (pcf + pcx)) mult
        | _, _, _, _ => none
      else none
    let current_oi := safe_get income "Operating Income" current_period
    let prev_oi := safe_get income "Operating Income" comparison_period
    let margin_growth_yoy_pp : Option ℚ :=
      match current_revenue, prev_revenue, current_oi, prev_oi with
      | some cr, some pr, some co, some po =>
        if cr ≠ 0 ∧ pr ≠ 0 ∧ co ≠ 0 ∧ po ≠ 0 then
          some ((co / cr - po / pr) * sqrt_mult mult)
        else none
      | _, _, _, _ => none
    let ebitda_growth_yoy : Option ℚ :=
      match current_oi, prev_oi with
      | some co, some po =>
        match safe_get income "Depreciation And Amortization" current_period,
              safe_get income "Depreciation And Amortization" comparison_period with
        | some cd, some pdep => calculate_growth_rate (some (co + |cd|)) (some (po + |pdep|)) mult
        | _, _ => calculate_growth_rate (some co) (some po) mult
      | _, _ => none
    { revenue_growth_yoy := revenue_growth_yoy,
      fcf_growth_yoy := fcf_growth_yoy,
      ebitda_growth_yoy := ebitda_growth_yoy,
      margin_growth_yoy_pp := margin_growth_yoy_pp }

/-- Debt record returned by `_calculate_debt_metrics`. -/
structure DebtMetrics where
  total_debt : Option ℚ
  cash_and_equivalents : Option ℚ
  net_debt : Option ℚ

/-- `_calculate_debt_metrics(balance)`: reads only the most recent balance
sheet column (`balance.columns[0]`); total debt is short-term + long-term
debt (each defaulting to 0 via `or 0`), present only when at least one side
is non-zero; net debt is total debt minus cash when both are present. -/
def calculate_debt_metrics (balance : DF) : DebtMetrics :=
  if balance.isEmptyDF then
    { total_debt := none, cash_and_equivalents := none, net_debt := none }
  else
    match balance.cols with
    | [] => { total_debt := none, cash_and_equivalents := none, net_debt := none }
    | most_recent :: _ =>
      let short_term_debt := (safe_get balance "Current Debt" most_recent).getD 0
      let long_term_debt := (safe_get balance "Long Term Debt" most_recent).getD 0
      let total_debt : Option ℚ :=
        if short_term_debt ≠ 0 ∨ long_term_debt ≠ 0 then
          some (short_term_debt + long_term_debt)
        else none
      let cash := safe_get balance "Cash And Cash Equivalents" most_recent
      let net_debt : Option ℚ :=
        match total_debt, cash with
        | some td, some c => some (td - c)
        | _, _ => none
      { total_debt := total_debt, cash_and_equivalents := cash, net_debt := net_debt }

/-- The TTM dictionary produced by `_calculate_ttm_metrics` (and, for the
error paths, `_get_empty_ttm`). The empty dictionary carries a different key
set (`revenue`, `net_income`, ...), so every `_ttm`-named key that
`compute_ttm_metrics` later reads via `.get` is absent there; the embedding
represents that by `none` fields. -/
structure TTMData where
  revenue_ttm : Option ℚ
  operating_income_ttm : Option ℚ
  operating_margin_ttm : Option ℚ
  fcf_ttm : Option ℚ
  fcf_margin_ttm : Option ℚ
  ebitda_ttm : Option ℚ
  revenue_growth_yoy : Option ℚ
  fcf_growth_yoy : Option ℚ
  ebitda_growth_yoy : Option ℚ
  margin_growth_yoy_pp : Option ℚ
  total_debt : Option ℚ
  cash_and_equivalents : Option ℚ
  net_debt : Option ℚ
  insufficient_data : Bool

/-- `_get_empty_ttm(insufficient_data=False)`: every metric key the later
pipeline reads is absent; the flag defaults to `False`, and no live call
site of the service passes `True`. -/
def get_empty_ttm (flag : Bool) : TTMData :=
  { revenue_ttm := none, operating_income_ttm := none, operating_margin_ttm := none,
    fcf_ttm := none, fcf_margin_ttm := none, ebitda_ttm := none,
    revenue_growth_yoy := none, fcf_growth_yoy := none, ebitda_growth_yoy := none,
    margin_growth_yoy_pp := none,
    total_debt := none, cash_and_equivalents := none, net_debt := none,
    insufficient_data := flag }

/-- The `recent_periods` selection of `_calculate_ttm_metrics`: quarterly
with ≥ 4 columns takes the four most recent columns; quarterly with 2–3
columns takes all columns (`columns[:num_periods]`); quarterly with one
column, or annual data, takes the most recent column only. -/
def ttm_recent (income : DF) (q : Bool) : List String :=
  if q = true ∧ 4 ≤ income.cols.length then income.cols.take 4
  else if q = true ∧ 2 ≤ income.cols.length then income.cols
  else income.cols.take 1

/-- The `ttm_multiplier` of `_calculate_ttm_metrics`: 1 for a full four
quarters, `4 / num_periods` when extrapolating from 2–3 quarters, 4 when
extrapolating a single quarter, 1 for annual data. -/
def ttm_mult (income : DF) (q : Bool) : ℚ :=
  if q = true ∧ 4 ≤ income.cols.length then 1
  else if q = true ∧ 2 ≤ income.cols.length then 4 / (income.cols.length : ℚ)
  else if q = true then 4
  else 1

/-- The period slice used for the FCF sums:
`recent_periods[:min(len(recent_periods), len(cashflow.columns))]`. -/
def fcf_periods (income cashflow : DF) (q : Bool) : List String :=
  (ttm_recent income q).take (min (ttm_recent income q).length cashflow.cols.length)

/-- `_calculate_ttm_metrics(income, cashflow, balance, is_quarterly)`.
When either the revenue or the operating-income `_safe_sum` is `None`,
Python raises `TypeError` at `None * ttm_multiplier`, and the surrounding
`except` returns `_get_empty_ttm()` (flag `False`); the final dictionary
sets `insufficient_data = not has_sufficient_data`, where for quarterly
data `has_sufficient_data = num_periods >= 2` and for annual
`num_periods >= 1`. -/
def calculate_ttm_metrics (income cashflow balance : DF) (q : Bool) : TTMData :=
  if income.isEmptyDF then get_empty_ttm false
  else
    match safe_sum income "Total Revenue" (ttm_recent income q),
          safe_sum income "Operating Income" (ttm_recent income q) with
    | some rev, some oi =>
      let mult := ttm_mult income q
      let revenue_ttm := rev * mult
      let operating_income_ttm := oi * mult
      let fcf_ttm : Option ℚ :=
        if cashflow.isEmptyDF then none
        else
          match safe_sum cashflow "Operating Cash Flow" (fcf_periods income cashflow q),
                safe_sum cashflow "Capital Expenditures" (fcf_periods income cashflow q) with
          | some ocf, some capex => some ((ocf + capex) * mult)
          | _, _ => none
      let ebitda_ttm : Option ℚ :=
        match safe_sum income "Depreciation And Amortization" (ttm_recent income q) with
        | some dep => some ((operating_income_ttm + |dep|) * (if q = true then mult else 1))
        | none => none
      let operating_margin_ttm : Option ℚ :=
        if revenue_ttm ≠ 0 then some (operating_income_ttm / revenue_ttm) else none
      let fcf_margin_ttm : Option ℚ :=
        if revenue_ttm ≠ 0 then fcf_ttm.map (fun f => f / revenue_ttm) else none
      let g := calculate_growth_rates income cashflow q
      let d := calculate_debt_metrics balance
      { revenue_ttm := some revenue_ttm,
        operating_income_ttm := some operating_income_ttm,
        operating_margin_ttm := operating_margin_ttm,
        fcf_ttm := fcf_ttm,
        fcf_margin_ttm := fcf_margin_ttm,
        ebitda_ttm := ebitda_ttm,
        revenue_growth_yoy := g.revenue_growth_yoy,
        fcf_growth_yoy := g.fcf_growth_yoy,
        ebitda_growth_yoy := g.ebitda_growth_yoy,
        margin_growth_yoy_pp := g.margin_growth_yoy_pp,
        total_debt := d.total_debt,
        cash_and_equivalents := d.cash_and_equivalents,
        net_debt := d.net_debt,
        insufficient_data :=
          if q = true then decide (income.cols.length < 2)
          else decide (income.cols.length < 1) }
    | _, _ => get_empty_ttm false

/-- The `FundamentalsTTM` record assembled by the module-level
`compute_ttm_metrics` wrapper. -/
structure FundTTM where
  ticker : String
  revenue_ttm : Option ℚ
  operating_income_ttm : Option ℚ
  operating_margin_ttm : Option ℚ
  fcf_ttm : Option ℚ
  fcf_margin_ttm : Option ℚ
  ebitda_ttm : Option ℚ
  revenue_growth_yoy : Option ℚ
  fcf_growth_yoy : Option ℚ
  ebitda_growth_yoy : Option ℚ
  margin_growth_yoy_pp : Option ℚ
  total_debt : Option ℚ
  cash_and_equivalents : Option ℚ
  net_debt : Option ℚ
  debt_to_cash : Option ℚ
  insufficient_data : Bool

/-- The `debt_to_cash` computation of `compute_ttm_metrics` (lines 31–35):
present exactly when both `total_debt` and `cash_and_equivalents` are
present and the cash value is non-zero. -/
def debt_to_cash_of (td c : Option ℚ) : Option ℚ :=
  match td, c with
  | some t, some cv => if cv ≠ 0 then some (t / cv) else none
  | _, _ => none

/-- Assembling `FundamentalsTTM` from the service's ttm dictionary in
`compute_ttm_metrics`; every metric field is read with `.get`, and
`insufficient_data` is read from the dictionary (the key is present on
every path, so the `.get` default `True` is never used). -/
def ttm_record_of (ttm : TTMData) (ticker : String) : FundTTM :=
  { ticker := ticker,
    revenue_ttm := ttm.revenue_ttm,
    operating_income_ttm := ttm.operating_income_ttm,
    operating_margin_ttm := ttm.operating_margin_ttm,
    fcf_ttm := ttm.fcf_ttm,
    fcf_margin_ttm := ttm.fcf_margin_ttm,
    ebitda_ttm := ttm.ebitda_ttm,
    revenue_growth_yoy := ttm.revenue_growth_yoy,
    fcf_growth_yoy := ttm.fcf_growth_yoy,
    ebitda_growth_yoy := ttm.ebitda_growth_yoy,
    margin_growth_yoy_pp := ttm.margin_growth_yoy_pp,
    total_debt := ttm.total_debt,
    cash_and_equivalents := ttm.cash_and_equivalents,
    net_debt := ttm.net_debt,
    debt_to_cash := debt_to_cash_of ttm.total_debt ttm.cash_and_equivalents,
    insufficient_data := ttm.insufficient_data }

/-- `compute_ttm_metrics(ticker)` on the success path of the fetch: the
three statement tables stand for the provider data the service fetched. -/
def compute_ttm_metrics (income cashflow balance : DF) (q : Bool) (ticker : String) : FundTTM :=
  ttm_record_of (calculate_ttm_metrics income cashflow balance q) ticker

/-- `compute_ttm_metrics(ticker)` when `get_fundamentals_data` hits its
`except` branch (provider fetch failed): the service returns
`_get_empty_result`, whose `ttm` entry is `_get_empty_ttm()` with the
defaulted flag `False`. -/
def fetch_failure_record (ticker : String) : FundTTM :=
  ttm_record_of (get_empty_ttm false) ticker

/-- A JSON-like value crossing the API boundary. `jnan` is a float NaN,
kept distinct from `jnull` because the compactor treats both as removable
while ordinary numbers are kept. -/
inductive JVal where
  | jnull : JVal
  | jnan : JVal
  | jnum : ℚ → JVal
  | jbool : Bool → JVal
  | jstr : String → JVal
  | jarr : List JVal → JVal
  | jobj : List (String × JVal) → JVal

/-- Modelled from the spec: the repository imports `compact` from
`backend.services.fundamentals`, but no definition of it appears in the
source tree; per the spec (§4.7) a value is removed when it is `None`, NaN,
or an empty sequence. -/
def removable : JVal → Bool
  | JVal.jnull => true
  | JVal.jnan => true
  | JVal.jarr [] => true
  | _ => false

/-- Modelled from the spec: one-level recursion of `compact` into a nested
dict-like sub-object — its own removable entries are dropped. -/
def compact1 : JVal → JVal
  | JVal.jobj kvs => JVal.jobj (kvs.filter (fun kv => !removable kv.2))
  | v => v

/-- Modelled from the spec: `compact(record)` — removes any key whose value
is `None`, NaN, or an empty sequence, recursively one level into nested
dict-like sub-objects (§4.7). The function itself is absent from the source
tree (only imported by the router), so it is modelled from the spec's words. -/
def compact (kvs : List (String × JVal)) : List (String × JVal) :=
  (kvs.filter (fun kv => !removable kv.2)).map (fun kv => (kv.1, compact1 kv.2))

/-- One optional numeric field of the pydantic `model_dump(exclude_none=True)`
serialization: absent when `none`. -/
def optField (name : String) (v : Option ℚ) : List (String × JVal) :=
  match v with
  | some x => [(name, JVal.jnum x)]
  | none => []

/-- `FundamentalsTTM.model_dump(exclude_none=True)` in field declaration
order of `backend/models/fundamentals.py`. -/
def serializeTTM (r : FundTTM) : List (String × JVal) :=
  [("ticker", JVal.jstr r.ticker), ("insufficient_data", JVal.jbool r.insufficient_data)]
  ++ optField "revenue_ttm" r.revenue_ttm
  ++ optField "operating_income_ttm" r.operating_income_ttm
  ++ optField "operating_margin_ttm" r.operating_margin_ttm
  ++ optField "fcf_ttm" r.fcf_ttm
  ++ optField "fcf_margin_ttm" r.fcf_margin_ttm
  ++ optField "ebitda_ttm" r.ebitda_ttm
  ++ optField "revenue_growth_yoy" r.revenue_growth_yoy
  ++ optField "fcf_growth_yoy" r.fcf_growth_yoy
  ++ optField "ebitda_growth_yoy" r.ebitda_growth_yoy
  ++ optField "margin_growth_yoy_pp" r.margin_growth_yoy_pp
  ++ optField "debt_to_cash" r.debt_to_cash
  ++ optField "total_debt" r.total_debt
  ++ optField "cash_and_equivalents" r.cash_and_equivalents
  ++ optField "net_debt" r.net_debt

/-- An empty statement table. -/
def emptyDF : DF := { cols := [], rows := [] }

/-- A quarterly income statement with two periods: revenue 110/100,
operating income 20/10 (columns most recent first). -/
def exIncome2 : DF :=
  { cols := ["2024-06-30", "2024-03-31"],
    rows := [("Total Revenue", rowOf [("2024-06-30", 110), ("2024-03-31", 100)]),
             ("Operating Income", rowOf [("2024-06-30", 20), ("2024-03-31", 10)])] }

/-- A quarterly income statement with five periods; revenue 110 in the
newest quarter and 100 in the quarter four back. -/
def exIncome5 : DF :=
  { cols := ["2024-12-31", "2024-09-30", "2024-06-30", "2024-03-31", "2023-12-31"],
    rows := [("Total Revenue",
              rowOf [("2024-12-31", 110), ("2024-09-30", 105), ("2024-06-30", 104),
                     ("2024-03-31", 103), ("2023-12-31", 100)])] }

/-- A quarterly income statement with four periods, revenue 100 and
operating income 10 in each. -/
def exIncome4 : DF :=
  { cols := ["2024-12-31", "2024-09-30", "2024-06-30", "2024-03-31"],
    rows := [("Total Revenue",
              rowOf [("2024-12-31", 100), ("2024-09-30", 100), ("2024-06-30", 100),
                     ("2024-03-31", 100)]),
             ("Operating Income",
              rowOf [("2024-12-31", 10), ("2024-09-30", 10), ("2024-06-30", 10),
                     ("2024-03-31", 10)])] }

/-- A cash-flow statement carrying only an operating-cash-flow row
(115 per quarter); the capital-expenditures line item is absent. -/
def exCFocf : DF :=
  { cols := ["2024-12-31", "2024-09-30", "2024-06-30", "2024-03-31"],
    rows := [("Operating Cash Flow",
              rowOf [("2024-12-31", 115), ("2024-09-30", 115), ("2024-06-30", 115),
                     ("2024-03-31", 115)])] }

/-- A cash-flow statement with both operating cash flow (115 per quarter)
and capital expenditures (−15 per quarter, stored negative as yfinance
reports them). -/
def exCFboth : DF :=
  { cols := ["2024-12-31", "2024-09-30", "2024-06-30", "2024-03-31"],
    rows := [("Operating Cash Flow",
              rowOf [("2024-12-31", 115), ("2024-09-30", 115), ("2024-06-30", 115),
                     ("2024-03-31", 115)]),
             ("Capital Expenditures",
              rowOf [("2024-12-31", -15), ("2024-09-30", -15), ("2024-06-30", -15),
                     ("2024-03-31", -15)])] }

/-- A one-period balance sheet: current debt 50, long-term debt 150,
cash and equivalents 100. -/
def exBalance : DF :=
  { cols := ["2024-12-31"],
    rows := [("Current Debt", rowOf [("2024-12-31", 50)]),
             ("Long Term Debt", rowOf [("2024-12-31", 150)]),
             ("Cash And Cash Equivalents", rowOf [("2024-12-31", 100)])] }

/-- A one-period income statement whose revenue in that period is 7. -/
def exOneCol : DF :=
  { cols := ["2024-06-30"],
    rows := [("Total Revenue", rowOf [("2024-06-30", 7)])] }

/-- A one-period income statement whose revenue in that period is 5. -/
def exFive : DF :=
  { cols := ["2024-01-01"],
    rows := [("Total Revenue", rowOf [("2024-01-01", 5)])] }

/-- Any value produced by the cell check of `_safe_get` is non-zero. -/
lemma goodCell_ne_zero (row : String → Option ℚ) (col : String) (v : ℚ)
    (h : goodCell row col = some v) : v ≠ 0 := by
  unfold goodCell at h
  split at h
  · split at h
    · cases h
      assumption
    · exact absurd h (by simp)
  · exact absurd h (by simp)

/-- If every answer of `f` satisfies `P`, so does the result of
`List.findSome? f`. -/
lemma findSome?_prop {α β : Type} (P : β → Prop) (f : α → Option β) (l : List α)
    (H : ∀ a b, f a = some b → P b) :
    ∀ b, l.findSome? f = some b → P b := by
  induction l with
  | nil => intro b h; exact absurd h (by simp [List.findSome?])
  | cons a as ih =>
    intro b h
    rw [List.findSome?_cons] at h
    cases hf : f a with
    | some c => rw [hf] at h; simp at h; rw [← h]; exact H a c hf
    | none => rw [hf] at h; simp at h; exact ih b h

/-- The case-insensitive scan of one `_safe_get` variant only produces
non-zero values. -/
lemma ciScan_ne_zero (df : DF) (variant col : String) (v : ℚ)
    (h : df.rows.findSome? (fun r =>
      if r.1.toLower = variant.toLower then goodCell r.2 col else none) = some v) :
    v ≠ 0 := by
  refine findSome?_prop (fun b => b ≠ 0) _ df.rows ?_ v h
  intro a b hb
  by_cases hl : a.1.toLower = variant.toLower
  · rw [if_pos hl] at hb
    exact goodCell_ne_zero a.2 col b hb
  · rw [if_neg hl] at hb
    exact absurd hb (by simp)

/-- Any value produced by one variant iteration of `_safe_get` is non-zero. -/
lemma tryVariant_ne_zero (df : DF) (variant col : String) (v : ℚ)
    (h : tryVariant df variant col = some v) : v ≠ 0 := by
  unfold tryVariant at h
  cases hx : (match df.rows.find? (fun r => r.1 = variant) with
              | some r => goodCell r.2 col
              | none => none) with
  | some w =>
    rw [hx] at h
    simp only [Option.some_orElse] at h
    cases h
    split at hx
    · exact goodCell_ne_zero _ col v hx
    · exact absurd hx (by simp)
  | none =>
    rw [hx] at h
    simp only [Option.none_orElse] at h
    exact ciScan_ne_zero df variant col v h

/-- `_safe_get` never returns the value 0: an exactly-zero cell is rejected
by the `value != 0` guard on every lookup path. -/
lemma safe_get_ne_zero (df : DF) (f p : String) (v : ℚ)
    (h : safe_get df f p = some v) : v ≠ 0 := by
  unfold safe_get at h
  by_cases he : df.isEmptyDF
  · rw [if_pos he] at h; exact absurd h (by simp)
  · rw [if_neg he] at h
    cases hc : resolveCol df p with
    | none => rw [hc] at h; exact absurd h (by simp)
    | some col =>
      rw [hc] at h
      exact findSome?_prop (fun b => b ≠ 0) _ _
        (fun a b hb => tryVariant_ne_zero df a col b hb) v h

/-- Turn every exactly-zero cell of a row into a missing cell. -/
def znRow (row : String → Option ℚ) : String → Option ℚ := fun c =>
  match row c with
  | some v => if v = 0 then none else some v
  | none => none

/-- Turn every exactly-zero cell of a table into a missing cell. -/
def DF.zeroToNone (df : DF) : DF :=
  { cols := df.cols, rows := df.rows.map (fun r => (r.1, znRow r.2)) }

/-- The cell check of `_safe_get` cannot tell a zero cell from a missing
cell. -/
lemma goodCell_znRow (row : String → Option ℚ) (col : String) :
    goodCell (znRow row) col = goodCell row col := by
  unfold goodCell znRow
  cases hc : row col with
  | none => simp
  | some v =>
    by_cases hv : v = 0
    · simp [hv]
    · simp [hv]

/-- Mapping `znRow` over the rows does not change a fixed-label lookup. -/
lemma find?_zn (rows : List (String × (String → Option ℚ))) (variant : String) :
    (rows.map (fun r => (r.1, znRow r.2))).find? (fun r => r.1 = variant)
      = (rows.find? (fun r => r.1 = variant)).map (fun r => (r.1, znRow r.2)) := by
  rw [List.find?_map]
  rfl

/-- One variant iteration of `_safe_get` cannot tell zero cells from
missing cells. -/
lemma tryVariant_zn (df : DF) (variant col : String) :
    tryVariant (DF.zeroToNone df) variant col = tryVariant df variant col := by
  unfold tryVariant DF.zeroToNone
  simp only [find?_zn, List.findSome?_map]
  have h1 : ∀ r : String × (String → Option ℚ),
      ((fun r : String × (String → Option ℚ) =>
        if r.1.toLower = variant.toLower then goodCell r.2 col else none) ∘
        (fun r : String × (String → Option ℚ) => (r.1, znRow r.2))) r
      = (fun r : String × (String → Option ℚ) =>
        if r.1.toLower = variant.toLower then goodCell r.2 col else none) r := by
    intro r
    simp only [Function.comp]
    by_cases hl : r.1.toLower = variant.toLower
    · rw [if_pos hl, if_pos hl, goodCell_znRow]
    · rw [if_neg hl, if_neg hl]
  rw [funext h1]
  cases hf : df.rows.find? (fun r => r.1 = variant) with
  | none => simp
  | some r => simp [goodCell_znRow]

/-- `_safe_get` cannot tell a zero cell from a missing cell: zeroing-out
cells to `none` leaves every lookup unchanged. -/
lemma safe_get_zn (df : DF) (f p : String) :
    safe_get (DF.zeroToNone df) f p = safe_get df f p := by
  unfold safe_get
  have hemp : (DF.zeroToNone df).isEmptyDF = df.isEmptyDF := by
    unfold DF.isEmptyDF DF.zeroToNone
    cases df.rows <;> cases df.cols <;> simp
  have hcols : (DF.zeroToNone df).cols = df.cols := rfl
  have hres : resolveCol (DF.zeroToNone df) p = resolveCol df p := by
    unfold resolveCol
    rw [hcols]
  rw [hemp, hres]
  by_cases he : df.isEmptyDF
  · simp [he]
  · simp only [he, if_false, Bool.false_eq_true]
    cases hc : resolveCol df p with
    | none => rfl
    | some col =>
      simp only []
      congr 1
      funext v
      exact tryVariant_zn df v col

/-- When the requested period matches no column of a non-empty table,
`_safe_get` silently answers for the first (most recent) column instead. -/
lemma safe_get_fallback (df : DF) (f p : String)
    (hne : df.isEmptyDF = false) (hp : p ∉ df.cols) :
    safe_get df f p = safe_get df f (df.cols.headD "") := by
  have hcols : ¬df.cols.isEmpty := by
    unfold DF.isEmptyDF at hne
    intro h
    rw [h] at hne
    simp at hne
  cases hc : df.cols with
  | nil => rw [hc] at hcols; simp at hcols
  | cons c cs =>
    have hfp : df.cols.find? (fun x => x = p) = none := by
      rw [List.find?_eq_none]
      intro x hx
      simp only [decide_eq_true_eq]
      intro hxp
      exact hp (hxp ▸ hx)
    have hrp : resolveCol df p = some c := by
      unfold resolveCol
      rw [hfp, hc]
      rfl
    have hrc : resolveCol df c = some c := by
      unfold resolveCol
      rw [hc, List.find?_cons]
      simp
    unfold safe_get
    rw [hne]
    simp only [List.headD_cons]
    rw [hrp, hrc]

/-- Claim C10: when the requested period matches no column of a non-empty
statement table, `_safe_get` falls back to the table's first (most recent)
column; consequently a growth comparison whose comparison period is missing
compares the most recent period's value against itself and yields growth 0. -/
theorem period_fallback_self_comparison (df : DF) (f p : String) (m v : ℚ)
    (hne : df.isEmptyDF = false) (hp : p ∉ df.cols) :
    safe_get df f p = safe_get df f (df.cols.headD "")
    ∧ (safe_get df f (df.cols.headD "") = some v →
       calculate_growth_rate (safe_get df f (df.cols.headD "")) (safe_get df f p) m
         = some 0) := by
  refine ⟨safe_get_fallback df f p hne hp, ?_⟩
  intro hv
  have hz : v ≠ 0 := safe_get_ne_zero df f _ v hv
  rw [safe_get_fallback df f p hne hp, hv]
  unfold calculate_growth_rate
  simp only [hz, if_neg]
  rw [div_self hz]
  norm_num

/-- Witness for C10 at a concrete one-column table: the lookup for the
absent period 1999-01-01 answers for 2024-06-30, and the self-comparison
growth is 0. -/
theorem period_fallback_self_comparison_witness :
    safe_get exOneCol "Total Revenue" "1999-01-01"
      = safe_get exOneCol "Total Revenue" (exOneCol.cols.headD "")
    ∧ calculate_growth_rate (safe_get exOneCol "Total Revenue" (exOneCol.cols.headD ""))
        (safe_get exOneCol "Total Revenue" "1999-01-01") 1 = some 0 :=
  ⟨(period_fallback_self_comparison exOneCol "Total Revenue" "1999-01-01" 1 7
      (by decide) (by decide)).1,
   (period_fallback_self_comparison exOneCol "Total Revenue" "1999-01-01" 1 7
      (by decide) (by decide)).2 (by decide)⟩

/-- Claim C9: a cell holding exactly 0 is treated as missing by the field
lookup — `_safe_get` never resolves a metric value to 0, and replacing every
zero cell by an absent cell changes no lookup result, so a genuinely
reported zero is indistinguishable from an absent line item. -/
theorem resolved_value_never_zero (df : DF) (f p : String) :
    (∀ v : ℚ, safe_get df f p = some v → v ≠ 0)
    ∧ safe_get (DF.zeroToNone df) f p = safe_get df f p :=
  ⟨fun v h => safe_get_ne_zero df f p v h, safe_get_zn df f p⟩

/-- Witness for C9 at a concrete table whose revenue cell holds 5. -/
theorem resolved_value_never_zero_witness :
    (5 : ℚ) ≠ 0
    ∧ safe_get (DF.zeroToNone exFive) "Total Revenue" "2024-01-01"
        = safe_get exFive "Total Revenue" "2024-01-01" :=
  ⟨(resolved_value_never_zero exFive "Total Revenue" "2024-01-01").1 5 (by decide),
   (resolved_value_never_zero exFive "Total Revenue" "2024-01-01").2⟩

/-- Claim C8: `_calculate_growth_rate` returns `None` when either value is
missing or the previous value is zero, discards computed growths with
absolute value above 10 (1000%), and propagates the computed growth
otherwise. -/
theorem growth_rate_cap_and_guards (c p : Option ℚ) (m cv pv : ℚ) :
    ((c = none ∨ p = none) → calculate_growth_rate c p m = none)
    ∧ (p = some 0 → calculate_growth_rate c p m = none)
    ∧ (c = some cv → p = some pv → pv ≠ 0 → |(cv / pv - 1) * m| > 10 →
       calculate_growth_rate c p m = none)
    ∧ (c = some cv → p = some pv → pv ≠ 0 → ¬|(cv / pv - 1) * m| > 10 →
       calculate_growth_rate c p m = some ((cv / pv - 1) * m)) := by
  refine ⟨?_, ?_, ?_, ?_⟩
  · intro h
    rcases h with rfl | rfl
    · rfl
    · cases c <;> rfl
  · rintro rfl
    cases c <;> simp [calculate_growth_rate]
  · rintro rfl rfl hpv hcap
    simp [calculate_growth_rate, hpv, hcap]
  · rintro rfl rfl hpv hcap
    simp [calculate_growth_rate, hpv, hcap]

/-- Witness for C8 at concrete inputs: growth 99 is capped to `None`, a
missing current value and a zero previous value give `None`, and growth 1
passes through. -/
theorem growth_rate_cap_and_guards_witness :
    calculate_growth_rate (some 100) (some 1) 1 = none
    ∧ calculate_growth_rate none (some 1) 1 = none
    ∧ calculate_growth_rate (some 1) (some 0) 1 = none
    ∧ calculate_growth_rate (some 2) (some 1) 1 = some ((2 / 1 - 1) * 1) :=
  ⟨(growth_rate_cap_and_guards (some 100) (some 1) 1 100 1).2.2.1 rfl rfl
      (by norm_num) (by norm_num),
   (growth_rate_cap_and_guards none (some 1) 1 0 0).1 (Or.inl rfl),
   (growth_rate_cap_and_guards (some 1) (some 0) 1 0 0).2.1 rfl,
   (growth_rate_cap_and_guards (some 2) (some 1) 1 2 1).2.2.2 rfl rfl
      (by norm_num) (by norm_num)⟩

/-- Claim C6: compaction keeps exactly the keys whose value is not `None`,
NaN, or an empty sequence, recursing one level into nested dict-like
sub-objects, and in particular
`compact({"a": None, "b": 1, "c": [], "d": nan}) = {"b": 1}`. -/
theorem compact_removes_null_nan_empty (kvs : List (String × JVal)) (k : String) (v : JVal) :
    ((k, v) ∈ compact kvs ↔
      ∃ w, (k, w) ∈ kvs ∧ removable w = false ∧ v = compact1 w)
    ∧ compact [("a", JVal.jnull), ("b", JVal.jnum 1), ("c", JVal.jarr []), ("d", JVal.jnan)]
        = [("b", JVal.jnum 1)] := by
  constructor
  · unfold compact
    simp only [List.mem_map, List.mem_filter]
    constructor
    · rintro ⟨⟨k2, w⟩, ⟨hmem, hrem⟩, heq⟩
      simp only [Prod.mk.injEq] at heq
      refine ⟨w, ?_, ?_, heq.2.symm⟩
      · rw [heq.1] at hmem
        exact hmem
      · simp only [Bool.not_eq_true'] at hrem
        exact hrem
    · rintro ⟨w, hmem, hrem, rfl⟩
      exact ⟨(k, w), ⟨hmem, by simp [hrem]⟩, rfl⟩
  · rfl

/-- Claim C4: when the provider fetch fails (or yields no usable data), the
pipeline returns a record rather than raising; after compaction the record
holds only the ticker and the `insufficient_data` flag — but the flag is
`false`, because `_get_empty_ttm`'s `insufficient_data` parameter defaults
to `False` and the error path never overrides it, contradicting the
documented intent (`_get_empty_result` itself stamps its metadata with
`insufficient_data: True`). -/
theorem empty_fetch_compact_record :
    compact (serializeTTM (fetch_failure_record "AAPL"))
      = [("ticker", JVal.jstr "AAPL"), ("insufficient_data", JVal.jbool false)]
    ∧ (fetch_failure_record "AAPL").insufficient_data = false
    ∧ (fetch_failure_record "AAPL").revenue_ttm = none := by
  exact ⟨rfl, rfl, rfl⟩

/-- A non-empty table has at least one column. -/
lemma cols_nonempty (df : DF) (h : df.isEmptyDF = false) : 1 ≤ df.cols.length := by
  unfold DF.isEmptyDF at h
  rcases Bool.or_eq_false_iff.mp h with ⟨h1, _⟩
  have : df.cols ≠ [] := List.isEmpty_eq_false.mp h1
  cases hc : df.cols with
  | nil => exact absurd hc this
  | cons c cs => simp [hc]

/-- Counterexample to claim C1 as stated: a quarterly revenue series with
only 2 valid observations (fewer than 4) does not yield `None` — the code
extrapolates `(110 + 100) * (4 / 2) = 420`. -/
theorem ttm_two_quarters_not_none :
    (calculate_ttm_metrics exIncome2 emptyDF emptyDF true).revenue_ttm = some 420 := by
  with_unfolding_all decide

/-- Claim C1 (amended): quarterly TTM revenue is the `_safe_sum` over the
`recent_periods` selection times the extrapolation multiplier — the four
most recent columns with multiplier 1 when ≥ 4 quarters are available, all
`n` columns with multiplier `4 / n` when `2 ≤ n < 4`, and the single column
with multiplier 4 when `n = 1`; under 4 quarters the result is an
extrapolation, not `None`. -/
theorem ttm_extrapolates_recent_sum (income cashflow balance : DF) (r o : ℚ)
    (hne : income.isEmptyDF = false)
    (hr : safe_sum income "Total Revenue" (ttm_recent income true) = some r)
    (ho : safe_sum income "Operating Income" (ttm_recent income true) = some o) :
    (calculate_ttm_metrics income cashflow balance true).revenue_ttm
      = some (r * ttm_mult income true) := by
  unfold calculate_ttm_metrics
  rw [hne, hr, ho]
  rfl

/-- Witness for C1 (amended) at a four-quarter table: revenue TTM is the
sum 400 of the four most recent quarters times multiplier 1. -/
theorem ttm_extrapolates_recent_sum_witness :
    (calculate_ttm_metrics exIncome4 exCFboth emptyDF true).revenue_ttm
      = some (400 * ttm_mult exIncome4 true) :=
  ttm_extrapolates_recent_sum exIncome4 exCFboth emptyDF 400 40
    (by with_unfolding_all decide) (by with_unfolding_all decide) (by with_unfolding_all decide)

/-- Counterexample to claim C2 as stated: a quarterly revenue series with 5
valid observations (fewer than 8) does not yield `None` — the code compares
the newest single quarter (110) against the quarter four back (100) and
reports growth 1/10. -/
theorem growth_five_quarters_not_none :
    (calculate_growth_rates exIncome5 emptyDF true).revenue_growth_yoy = some (1 / 10) := by
  with_unfolding_all decide

/-- Claim C2 (amended): quarterly YoY revenue growth is `None` only when the
income table has fewer than 2 columns; with ≥ 2 columns it is the
single-quarter comparison chosen by `growth_cmp` (newest vs. four back with
multiplier 1 when ≥ 5 columns, sequential quarters annualized ×4 otherwise)
passed through `_calculate_growth_rate` — never a comparison of 4-quarter
sums. -/
theorem growth_single_quarter_comparison (income cashflow : DF) :
    (income.cols.length < 2 →
      (calculate_growth_rates income cashflow true).revenue_growth_yoy = none)
    ∧ (income.isEmptyDF = false → 2 ≤ income.cols.length →
      (calculate_growth_rates income cashflow true).revenue_growth_yoy
        = calculate_growth_rate
            (safe_get income "Total Revenue" (growth_cmp income true).1)
            (safe_get income "Total Revenue" (growth_cmp income true).2.1)
            (growth_cmp income true).2.2) := by
  constructor
  · intro h
    unfold calculate_growth_rates
    have : (income.isEmptyDF || decide (income.cols.length < 2)) = true := by
      simp [h]
    rw [this]
    rfl
  · intro hne h2
    unfold calculate_growth_rates
    have : (income.isEmptyDF || decide (income.cols.length < 2)) = false := by
      rw [hne]
      simp
      omega
    rw [this]
    rfl

/-- Witness for C2 (amended): a one-column table gives `None`; the
five-column table gives exactly the single-quarter comparison. -/
theorem growth_single_quarter_comparison_witness :
    (calculate_growth_rates exOneCol emptyDF true).revenue_growth_yoy = none
    ∧ (calculate_growth_rates exIncome5 emptyDF true).revenue_growth_yoy
        = calculate_growth_rate
            (safe_get exIncome5 "Total Revenue" (growth_cmp exIncome5 true).1)
            (safe_get exIncome5 "Total Revenue" (growth_cmp exIncome5 true).2.1)
            (growth_cmp exIncome5 true).2.2 :=
  ⟨(growth_single_quarter_comparison exOneCol emptyDF).1 (by with_unfolding_all decide),
   (growth_single_quarter_comparison exIncome5 emptyDF).2 (by with_unfolding_all decide) (by with_unfolding_all decide)⟩

/-- Counterexample to claim C3 as stated: with a quarterly revenue series of
only 2 valid observations (fewer than 3) the claim requires
`insufficient_data = true`, but the code reports `false` because quarterly
sufficiency is `num_periods >= 2` over raw income columns. -/
theorem insufficient_false_two_quarters :
    (calculate_ttm_metrics exIncome2 emptyDF emptyDF true).insufficient_data = false := by
  with_unfolding_all decide

/-- Claim C3 (amended): `insufficient_data` is `true` exactly when the data
is quarterly, the income table is non-empty with fewer than 2 columns
(i.e. exactly one), and both the revenue and operating-income TTM sums
resolved (otherwise the `except` path returns `_get_empty_ttm()` whose flag
is `false`); the 3-observation rule of the spec plays no role. -/
theorem insufficient_data_characterization (income cashflow balance : DF) (q : Bool) :
    (calculate_ttm_metrics income cashflow balance q).insufficient_data = true ↔
      (income.isEmptyDF = false ∧ q = true ∧ income.cols.length < 2
       ∧ (safe_sum income "Total Revenue" (ttm_recent income q)).isSome = true
       ∧ (safe_sum income "Operating Income" (ttm_recent income q)).isSome = true) := by
  unfold calculate_ttm_metrics
  by_cases hne : income.isEmptyDF = true
  · simp [hne, get_empty_ttm]
  · have hb : income.isEmptyDF = false := by rwa [Bool.not_eq_true] at hne
    rw [hb]
    cases hr : safe_sum income "Total Revenue" (ttm_recent income q) with
    | none => simp [get_empty_ttm, hb]
    | some r =>
      cases ho : safe_sum income "Operating Income" (ttm_recent income q) with
      | none => simp [get_empty_ttm, hb]
      | some o =>
        have hn : 1 ≤ income.cols.length := cols_nonempty income hb
        have hn2 : ¬income.cols.length < 1 := by omega
        cases q
        · simp [hb, hn2]
        · simp [hb]

/-- Counterexample to claim C5 as stated: with operating cash flow present
(TTM sum 460) but the capital-expenditures line item absent, the claim
requires FCF = OCF alone, but the code leaves `fcf_ttm` absent. -/
theorem fcf_missing_capex_none :
    (calculate_ttm_metrics exIncome4 exCFocf emptyDF true).fcf_ttm = none
    ∧ safe_sum exCFocf "Operating Cash Flow" (fcf_periods exIncome4 exCFocf true)
        = some 460 := by
  exact ⟨by with_unfolding_all decide, by with_unfolding_all decide⟩

/-- Claim C5 (amended): TTM free cash flow is present only when both the
operating-cash-flow and the capital-expenditures sums resolve, and then
equals `(OCF + CapEx) * multiplier` with CapEx taken as stored (negative by
provider convention, so this is OCF − |CapEx| only when CapEx ≤ 0); when
CapEx (or OCF) is missing there is no OCF-only fallback — FCF is absent. -/
theorem fcf_requires_both_ocf_capex (income cashflow balance : DF) (r o : ℚ)
    (hne : income.isEmptyDF = false)
    (hr : safe_sum income "Total Revenue" (ttm_recent income true) = some r)
    (ho : safe_sum income "Operating Income" (ttm_recent income true) = some o) :
    (∀ ocf capex : ℚ, cashflow.isEmptyDF = false →
       safe_sum cashflow "Operating Cash Flow" (fcf_periods income cashflow true) = some ocf →
       safe_sum cashflow "Capital Expenditures" (fcf_periods income cashflow true) = some capex →
       (calculate_ttm_metrics income cashflow balance true).fcf_ttm
         = some ((ocf + capex) * ttm_mult income true))
    ∧ (safe_sum cashflow "Capital Expenditures" (fcf_periods income cashflow true) = none →
       (calculate_ttm_metrics income cashflow balance true).fcf_ttm = none) := by
  constructor
  · intro ocf capex hcf hocf hcap
    unfold calculate_ttm_metrics
    rw [hne, hr, ho]
    simp only []
    rw [hcf, hocf, hcap]
    rfl
  · intro hcap
    unfold calculate_ttm_metrics
    rw [hne, hr, ho]
    simp only []
    by_cases hc : cashflow.isEmptyDF = true
    · simp [hc]
    · have hcf : cashflow.isEmptyDF = false := by rwa [Bool.not_eq_true] at hc
      rw [hcf, hcap]
      cases hocf : safe_sum cashflow "Operating Cash Flow" (fcf_periods income cashflow true)
        <;> simp [hocf]

/-- Witness for C5 (amended): with both line items present FCF is
`(460 + (−60)) * 1`; with capex absent it is absent. -/
theorem fcf_requires_both_ocf_capex_witness :
    (calculate_ttm_metrics exIncome4 exCFboth emptyDF true).fcf_ttm
      = some ((460 + -60) * ttm_mult exIncome4 true)
    ∧ (calculate_ttm_metrics exIncome4 exCFocf emptyDF true).fcf_ttm = none :=
  ⟨(fcf_requires_both_ocf_capex exIncome4 exCFboth emptyDF 400 40
      (by with_unfolding_all decide) (by with_unfolding_all decide) (by with_unfolding_all decide)).1 460 (-60) (by with_unfolding_all decide) (by with_unfolding_all decide) (by with_unfolding_all decide),
   (fcf_requires_both_ocf_capex exIncome4 exCFocf emptyDF 400 40
      (by with_unfolding_all decide) (by with_unfolding_all decide) (by with_unfolding_all decide)).2 (by with_unfolding_all decide)⟩

/-- `debt_to_cash_of` is defined exactly when both inputs are present and
the cash value is non-zero. -/
lemma dtc_isSome_iff (a b : Option ℚ) :
    (debt_to_cash_of a b).isSome = true ↔
      (a.isSome = true ∧ b.isSome = true ∧ b ≠ some 0) := by
  cases a with
  | none => simp [debt_to_cash_of]
  | some t =>
    cases b with
    | none => simp [debt_to_cash_of]
    | some cv =>
      by_cases h : cv = 0
      · simp [debt_to_cash_of, h]
      · simp [debt_to_cash_of, h]

/-- The value of `debt_to_cash_of` on present inputs with non-zero cash. -/
lemma dtc_value (t cv : ℚ) (h : cv ≠ 0) :
    debt_to_cash_of (some t) (some cv) = some (t / cv) := by
  simp [debt_to_cash_of, h]

/-- Restriction of a table to its first (most recent) column. -/
def DF.firstColOnly (df : DF) : DF :=
  { cols := df.cols.take 1, rows := df.rows }

/-- A `_safe_get` at the head column only depends on the rows and on the
head column being resolvable, so restricting the columns to the head
changes nothing. -/
lemma safe_get_head_first_col (balance : DF) (f c : String) (cs : List String)
    (hc : balance.cols = c :: cs) (hr : balance.rows.isEmpty = false) :
    safe_get { cols := [c], rows := balance.rows } f c = safe_get balance f c := by
  have h1 : balance.isEmptyDF = false := by
    unfold DF.isEmptyDF
    rw [hc, hr]
    rfl
  have h2 : ({ cols := [c], rows := balance.rows } : DF).isEmptyDF = false := by
    unfold DF.isEmptyDF
    rw [hr]
    rfl
  have hr1 : resolveCol balance c = some c := by
    unfold resolveCol
    rw [hc, List.find?_cons]
    simp
  have hr2 : resolveCol { cols := [c], rows := balance.rows } c = some c := by
    unfold resolveCol
    simp [List.find?_cons]
  unfold safe_get
  rw [h1, h2, hr1, hr2]
  rfl

/-- `_calculate_debt_metrics` reads only the most recent balance-sheet
column: restricting the table to its first column changes nothing. -/
lemma debt_metrics_first_col (balance : DF) :
    calculate_debt_metrics balance = calculate_debt_metrics (DF.firstColOnly balance) := by
  unfold DF.firstColOnly calculate_debt_metrics
  cases hc : balance.cols with
  | nil =>
    have h : balance.isEmptyDF = true := by
      unfold DF.isEmptyDF
      rw [hc]
      rfl
    simp [h]
  | cons c cs =>
    by_cases hr : balance.rows.isEmpty = true
    · have h1 : balance.isEmptyDF = true := by
        unfold DF.isEmptyDF
        rw [hr]
        simp
      have h2 : ({ cols := (c :: cs).take 1, rows := balance.rows } : DF).isEmptyDF = true := by
        unfold DF.isEmptyDF
        rw [hr]
        simp
      rw [h1, h2]
      rfl
    · have hrf : balance.rows.isEmpty = false := by rwa [Bool.not_eq_true] at hr
      have h1 : balance.isEmptyDF = false := by
        unfold DF.isEmptyDF
        rw [hc, hrf]
        rfl
      have h2 : ({ cols := (c :: cs).take 1, rows := balance.rows } : DF).isEmptyDF = false := by
        unfold DF.isEmptyDF
        rw [hrf]
        simp
      rw [h1, h2]
      simp only [Bool.false_eq_true, if_false, List.take_succ_cons, List.take_zero]
      rw [safe_get_head_first_col balance "Current Debt" c cs hc hrf,
          safe_get_head_first_col balance "Long Term Debt" c cs hc hrf,
          safe_get_head_first_col balance "Cash And Cash Equivalents" c cs hc hrf]

/-- Claim C7: in every emitted TTM record, `debt_to_cash` is present iff
both `total_debt` and `cash_and_equivalents` are present with non-zero
cash, in which case it equals their quotient; and the underlying debt
metrics are computed from the latest single balance-sheet observation only
(not TTM-summed). -/
theorem debt_to_cash_round_trip (income cashflow balance : DF) (q : Bool) (tk : String) :
    ((compute_ttm_metrics income cashflow balance q tk).debt_to_cash.isSome = true ↔
      ((compute_ttm_metrics income cashflow balance q tk).total_debt.isSome = true
       ∧ (compute_ttm_metrics income cashflow balance q tk).cash_and_equivalents.isSome = true
       ∧ (compute_ttm_metrics income cashflow balance q tk).cash_and_equivalents ≠ some 0))
    ∧ (∀ td c : ℚ,
        (compute_ttm_metrics income cashflow balance q tk).total_debt = some td →
        (compute_ttm_metrics income cashflow balance q tk).cash_and_equivalents = some c →
        c ≠ 0 →
        (compute_ttm_metrics income cashflow balance q tk).debt_to_cash = some (td / c))
    ∧ calculate_debt_metrics balance = calculate_debt_metrics (DF.firstColOnly balance) := by
  refine ⟨?_, ?_, debt_metrics_first_col balance⟩
  · exact dtc_isSome_iff (calculate_ttm_metrics income cashflow balance q).total_debt
      (calculate_ttm_metrics income cashflow balance q).cash_and_equivalents
  · intro td c h1 h2 hc
    have hd : (compute_ttm_metrics income cashflow balance q tk).debt_to_cash
        = debt_to_cash_of (compute_ttm_metrics income cashflow balance q tk).total_debt
            (compute_ttm_metrics income cashflow balance q tk).cash_and_equivalents := rfl
    rw [hd, h1, h2, dtc_value td c hc]

/-- Witness for C7 at a concrete pipeline run: total debt 50 + 150 = 200 and
cash 100 from the single balance-sheet column give `debt_to_cash = 2`. -/
theorem debt_to_cash_round_trip_witness :
    (compute_ttm_metrics exIncome4 exCFboth exBalance true "T").debt_to_cash
      = some (200 / 100) :=
  (debt_to_cash_round_trip exIncome4 exCFboth exBalance true "T").2.1 200 100
    (by with_unfolding_all decide) (by with_unfolding_all decide) (by with_unfolding_all decide)
